import Mathlib

set_option maxRecDepth 8000

namespace JsonToCsv

/-!
Verification of the JSON-to-CSV command-line utility (src/json_to_csv.py).

The program loads one or more JSON files via polars `read_json`, checks
each loaded value with `isinstance(data, list)`, accumulates the rows,
prompts for an output filename, and writes a CSV via polars `write_csv`.
This file embeds the program shallowly: Python runtime values, the
filesystem, standard input and the home directory are explicit
parameters; printed lines, file writes and the exit code are the
observable outcome.
-/

/-- Scalar values appearing in flat JSON records at the Python runtime level. -/
inductive PyVal where
  | vInt (n : Int)
  | vStr (s : String)
  | vBool (b : Bool)
  | vNull
deriving DecidableEq

/-- A flat JSON object as an ordered association list of fields. -/
abbrev Record := List (String × PyVal)

/-- Polars column storage types relevant to this program. -/
inductive Dtype where
  | int8
  | int16
  | int32
  | int64
  | strType
  | boolType
  | nullType
deriving DecidableEq

/-- One polars column: its name, storage dtype and observed values. -/
structure Column where
  name : String
  dtype : Dtype
  values : List PyVal
deriving DecidableEq

/-- A polars DataFrame: an ordered list of columns. -/
structure Frame where
  cols : List Column
deriving DecidableEq

/-- Python exception values raised by the program or by the polars library. -/
inductive PyErr where
  | fileNotFoundError (msg : String)
  | valueError (msg : String)
  | computeError (msg : String)
deriving DecidableEq

/-- Decidable equality for the result value of the Writer. -/
instance : DecidableEq (Except PyErr String) := fun x y =>
  match x, y with
  | .error a, .error b =>
    if h : a = b then .isTrue (by rw [h]) else .isFalse (by intro hx; cases hx; exact h rfl)
  | .ok a, .ok b =>
    if h : a = b then .isTrue (by rw [h]) else .isFalse (by intro hx; cases hx; exact h rfl)
  | .error a, .ok b => .isFalse (by intro hx; cases hx)
  | .ok a, .error b => .isFalse (by intro hx; cases hx)

/-- What a file on disk holds, as far as polars `read_json` is concerned:
either content that parses into a DataFrame, or content on which parsing
raises an exception. -/
inductive FileContent where
  | parsesTo (df : Frame)
  | invalid
deriving DecidableEq

/-- The Python runtime value returned by `load_data`, as inspected by the
`isinstance(data, list)` check in `main`. Polars `read_json` always returns
a DataFrame object and never a Python list, but the check in `main`
distinguishes the two runtime types, so both appear here. -/
inductive LoadResult where
  | pyList (rows : List Record)
  | pyDataFrame (df : Frame)
deriving DecidableEq

/-- Python `s.startswith(t)`. -/
def pyStartswith (s t : String) : Bool := t.data.isPrefixOf s.data

/-- Python `s.endswith(t)`: used by the filename check in
`save_dataframe_to_csv`, an exact case-sensitive suffix test. -/
def pyEndswith (s t : String) : Bool := t.data.isSuffixOf s.data

/-- Python `s[n:]` for a nonnegative index. -/
def strDrop (s : String) (n : Nat) : String := ⟨s.data.drop n⟩

/-- Python `s.strip()`: remove leading and trailing whitespace. -/
def pyStrip (s : String) : String :=
  ⟨((s.data.dropWhile Char.isWhitespace).reverse.dropWhile Char.isWhitespace).reverse⟩

/-- Remove trailing slash characters from a character list, keeping the
rest of the list intact; used by `expanduser` as CPython does with
`userhome.rstrip(sep)`. -/
def rstripAux : List Char → List Char
  | [] => []
  | c :: cs =>
    match rstripAux cs with
    | [] => if c = '/' then [] else [c]
    | d :: ds => c :: d :: ds

/-- Python `s.rstrip(sep)` for the POSIX separator. -/
def rstripSlash (s : String) : String := ⟨rstripAux s.data⟩

/-- POSIX `os.path.join` for two components: an absolute second component
replaces the first, otherwise the parts are joined with a separator. -/
def pyJoin (a b : String) : String :=
  if pyStartswith b "/" then b
  else if a = "" || pyEndswith a "/" then a ++ b
  else a ++ "/" ++ b

/-- POSIX `os.path.expanduser` with the home directory as an explicit
parameter: a path whose leading component is a bare tilde is rewritten to
the home directory with trailing separators stripped; a named-user form
and any path not starting with a tilde are returned unchanged. -/
def expanduser (home path : String) : String :=
  if pyStartswith path "~" = false then path
  else if path.data.length = 1 || pyStartswith (strDrop path 1) "/" then
    let base := rstripSlash home ++ strDrop path 1
    if base = "" then "/" else base
  else path

/-- Whether a Python value is the null value. -/
def isNullV : PyVal → Bool
  | .vNull => true
  | _ => false

/-- Whether a Python value is an integer. -/
def isIntV : PyVal → Bool
  | .vInt _ => true
  | _ => false

/-- Whether a Python value is a string. -/
def isStrV : PyVal → Bool
  | .vStr _ => true
  | _ => false

/-- Whether a Python value is a boolean. -/
def isBoolV : PyVal → Bool
  | .vBool _ => true
  | _ => false

/-- The non-null values of a column. -/
def nonNull (vs : List PyVal) : List PyVal := vs.filter (fun v => !isNullV v)

/-- Polars dtype inference for one column of values coming from a list of
dictionaries: homogeneous non-null values give the wide type of that kind
(integers are read as Int64), an all-null column is typed Null, and a
mixed column makes DataFrame construction raise. -/
def inferDtype (vs : List PyVal) : Option Dtype :=
  let nn := nonNull vs
  if nn = [] then some .nullType
  else if nn.all isIntV then some .int64
  else if nn.all isStrV then some .strType
  else if nn.all isBoolV then some .boolType
  else none

/-- Append the keys of one record to an accumulator, keeping first-seen
order and dropping duplicates. -/
def addKeys (acc : List String) (ks : List String) : List String :=
  ks.foldl (fun a k => if a.contains k then a else a ++ [k]) acc

/-- The union of keys over all records in first-seen order: the column set
polars derives when building a DataFrame from a list of dictionaries. -/
def keysUnion (rows : List Record) : List String :=
  rows.foldl (fun a r => addKeys a (r.map Prod.fst)) []

/-- The values of the column named `k`, one per row, null when a row lacks
the key. -/
def colValues (rows : List Record) (k : String) : List PyVal :=
  rows.map (fun r => (r.lookup k).getD .vNull)

/-- Build the columns of a DataFrame for the given key list, raising a
polars error on a column whose values mix kinds. -/
def buildCols (rows : List Record) : List String → Except PyErr (List Column)
  | [] => .ok []
  | k :: ks =>
    let vs := colValues rows k
    match inferDtype vs with
    | none => .error (.computeError ("could not create DataFrame from mixed column " ++ k))
    | some d =>
      match buildCols rows ks with
      | .error e => .error e
      | .ok cs => .ok (⟨k, d, vs⟩ :: cs)

/-- Polars `pl.DataFrame(data)` on a list of dictionaries: the column set
is the union of keys in first-seen order, each column typed by inference. -/
def mkFrame (rows : List Record) : Except PyErr Frame :=
  match buildCols rows (keysUnion rows) with
  | .error e => .error e
  | .ok cs => .ok ⟨cs⟩

/-- The integer values of a column. -/
def intsOf (vs : List PyVal) : List Int :=
  vs.filterMap (fun v => match v with | .vInt n => some n | _ => none)

/-- Whether every integer in the list lies in the closed interval. -/
def fitsWidth (lo hi : Int) (vs : List Int) : Bool :=
  vs.all (fun n => decide (lo ≤ n) && decide (n ≤ hi))

/-- Polars `shrink_dtype` on an Int64 column: the smallest signed integer
type whose range contains every observed value (polars preserves
signedness when shrinking). -/
def shrinkIntDtype (vs : List Int) : Dtype :=
  if fitsWidth (-128) 127 vs then .int8
  else if fitsWidth (-32768) 32767 vs then .int16
  else if fitsWidth (-2147483648) 2147483647 vs then .int32
  else .int64

/-- Polars `shrink_dtype` on one column: Int64 columns are narrowed, other
dtypes in our value domain are left unchanged. -/
def shrinkCol (c : Column) : Column :=
  if c.dtype = .int64 then { c with dtype := shrinkIntDtype (intsOf c.values) } else c

/-- The `select(pl.all().shrink_dtype())` step of the Writer. -/
def shrinkFrame (f : Frame) : Frame := ⟨f.cols.map shrinkCol⟩

/-- The number of bits of an integer dtype, zero for non-integer dtypes. -/
def dtypeBits : Dtype → Nat
  | .int8 => 8
  | .int16 => 16
  | .int32 => 32
  | .int64 => 64
  | _ => 0

/-- Whether an integer dtype can store every value of the list. -/
def intDtypeFits : Dtype → List Int → Bool
  | .int8, vs => fitsWidth (-128) 127 vs
  | .int16, vs => fitsWidth (-32768) 32767 vs
  | .int32, vs => fitsWidth (-2147483648) 2147483647 vs
  | .int64, vs => fitsWidth (-9223372036854775808) 9223372036854775807 vs
  | _, _ => false

/-- `save_dataframe_to_csv` from src/json_to_csv.py lines 24 to 46: checks
the filename extension, builds the output path with `os.path.join` and
`os.path.expanduser`, builds the DataFrame, narrows dtypes, writes the CSV
and returns the path. The result is the returned value or raised
exception, paired with the list of file-write events (path and the frame
serialized there). -/
def save_dataframe_to_csv (data : List Record) (filename : String)
    (output_dir : String) (home : String) :
    Except PyErr String × List (String × Frame) :=
  if pyEndswith filename ".csv" = false then
    (.error (.valueError "Filename must have a .csv extension."), [])
  else
    let output_path := expanduser home (pyJoin output_dir filename)
    match mkFrame data with
    | .error e => (.error e, [])
    | .ok df0 => (.ok output_path, [(output_path, shrinkFrame df0)])

/-- The filesystem, standard input and home directory visible to one run. -/
structure World where
  fs : String → Option FileContent
  stdinLine : String
  home : String

/-- `load_data` from src/json_to_csv.py lines 8 to 21: raises
FileNotFoundError when the path does not exist, otherwise returns the
value of `pl.read_json(file)`, which is a polars DataFrame (or a raised
parse error); despite the annotation in the source it is never a Python
list. -/
def load_data (fs : String → Option FileContent) (file_path : String) :
    Except PyErr LoadResult :=
  match fs file_path with
  | none => .error (.fileNotFoundError ("File not found: " ++ file_path))
  | some .invalid => .error (.computeError ("could not parse JSON file " ++ file_path))
  | some (.parsesTo df) => .ok (.pyDataFrame df)

/-- The `isinstance(data, list)` branch of `main`: a Python list yields its
rows, anything else fails the check. -/
def asList : LoadResult → Option (List Record)
  | .pyList rows => some rows
  | .pyDataFrame _ => none

/-- The loading loop of `main` (src/json_to_csv.py lines 59 to 67): for
each path, print a progress line, call `load_data`, raise ValueError when
the result is not a Python list, and extend the combined row list.
Returns the printed lines and either the combined rows or the first
raised exception. -/
def loadLoop (fs : String → Option FileContent) :
    List String → List String × Except PyErr (List Record)
  | [] => ([], .ok [])
  | p :: ps =>
    let line := "Loading data from: " ++ p
    match load_data fs p with
    | .error e => ([line], .error e)
    | .ok d =>
      match asList d with
      | none =>
        ([line], .error (.valueError ("File " ++ p ++ " does not contain a list of dictionaries.")))
      | some rows =>
        match loadLoop fs ps with
        | (lines, .ok rest) => (line :: lines, .ok (rows ++ rest))
        | (lines, .error e) => (line :: lines, .error e)

/-- The text printed by `input` at the filename prompt. -/
def promptText : String := "Enter the filename (e.g. \u0027data.csv\u0027): "

/-- The observable result of the prompt-and-save tail of `main`. -/
structure PromptOutcome where
  printed : List String
  writes : List (String × Frame)
  err : Option PyErr
deriving DecidableEq

/-- The prompt-and-save tail of `main` (src/json_to_csv.py lines 69 to
76): read a line from standard input, strip it, raise ValueError when
empty, otherwise call `save_dataframe_to_csv` with the default output
directory and print the saved path. -/
def promptAndSave (combined : List Record) (stdin home : String) : PromptOutcome :=
  let filename := pyStrip stdin
  if filename = "" then
    ⟨[promptText], [], some (.valueError "Filename cannot be empty.")⟩
  else
    match save_dataframe_to_csv combined filename "~/Documents" home with
    | (.ok p, ws) => ⟨[promptText, "DataFrame successfully saved to: " ++ p], ws, none⟩
    | (.error e, ws) => ⟨[promptText], ws, some e⟩

/-- The usage line printed when no file arguments are given. -/
def usageMsg : String := "Usage: python script.py <file1.json> <file2.json> ... <file.json>"

/-- Python `str(e)` for the exceptions of this program: the message. -/
def errMsg : PyErr → String
  | .fileNotFoundError m => m
  | .valueError m => m
  | .computeError m => m

/-- The observable outcome of one process run: printed lines, file writes
and the exit code. -/
structure Outcome where
  printed : List String
  writes : List (String × Frame)
  exitCode : Nat
deriving DecidableEq

/-- `main` from src/json_to_csv.py lines 49 to 79: with fewer than two
argv entries print the usage line and exit with status 1; otherwise run
the loading loop, the prompt and the Writer inside the try block, catch
any exception at the top level, print "An error occurred: " with the
message, and let the process end with status 0. -/
def main (argv : List String) (w : World) : Outcome :=
  if argv.length < 2 then
    ⟨[usageMsg], [], 1⟩
  else
    match loadLoop w.fs (argv.drop 1) with
    | (lines, .error e) => ⟨lines ++ ["An error occurred: " ++ errMsg e], [], 0⟩
    | (lines, .ok combined) =>
      let out := promptAndSave combined w.stdinLine w.home
      match out.err with
      | some e => ⟨lines ++ out.printed ++ ["An error occurred: " ++ errMsg e], out.writes, 0⟩
      | none => ⟨lines ++ out.printed, out.writes, 0⟩

/-! Concrete worlds used to evaluate the program on specific inputs. -/

/-- A filesystem with one existing file a.json holding a JSON array of one
flat object, which polars parses into a one-row DataFrame. -/
def fsOne : String → Option FileContent := fun q =>
  if q = "a.json" then some (.parsesTo ⟨[⟨"x", .int64, [.vInt 1]⟩]⟩) else none

/-- World for the single-file run: a.json exists, stdin holds a valid
filename, home is absolute. -/
def wOne : World := ⟨fsOne, "data.csv", "/home/user"⟩

/-- A filesystem holding the two example files of the spec:
a.json = [{"x":1,"y":"a"}] and b.json = [{"x":2,"y":"b"}]. -/
def fsPair : String → Option FileContent := fun q =>
  if q = "a.json" then
    some (.parsesTo ⟨[⟨"x", .int64, [.vInt 1]⟩, ⟨"y", .strType, [.vStr "a"]⟩]⟩)
  else if q = "b.json" then
    some (.parsesTo ⟨[⟨"x", .int64, [.vInt 2]⟩, ⟨"y", .strType, [.vStr "b"]⟩]⟩)
  else none

/-- World for the two-file example run of the spec. -/
def wPair : World := ⟨fsPair, "data.csv", "/home/user"⟩

/-- A filesystem where a.json exists and parses, and every other path,
in particular missing.json, does not exist. -/
def fsGap : String → Option FileContent := fun q =>
  if q = "a.json" then some (.parsesTo ⟨[⟨"x", .int64, [.vInt 1]⟩]⟩) else none

/-- World for the run whose second argument names a nonexistent file. -/
def wGap : World := ⟨fsGap, "data.csv", "/home/user"⟩

/-- C1: the claim says a run on one valid JSON array of one object writes
a CSV with one data row. The code instead raises ValueError at the
isinstance check, because load_data returns the polars DataFrame produced
by read_json and never a Python list, so no CSV is written at all: the
run prints the error and exits with the empty write list. -/
theorem merged_rows_never_written :
    main ["script.py", "a.json"] wOne =
      { printed := ["Loading data from: a.json",
          "An error occurred: File a.json does not contain a list of dictionaries."],
        writes := [], exitCode := 0 } := by decide

/-- C3: on the exact spec example, two files a.json = [{"x":1,"y":"a"}]
and b.json = [{"x":2,"y":"b"}] with a valid filename on stdin, the claim
says a CSV with header x,y and rows 1,a then 2,b is written. The code
raises ValueError on the first file at the isinstance check and writes
nothing. -/
theorem example_inputs_produce_no_csv :
    main ["script.py", "a.json", "b.json"] wPair =
      { printed := ["Loading data from: a.json",
          "An error occurred: File a.json does not contain a list of dictionaries."],
        writes := [], exitCode := 0 } := by decide

/-- C4: the claim says any nonexistent input path makes the Loader raise
FileNotFound and the program report it. With a valid existing file before
the missing one, the code raises ValueError about the first file at the
isinstance check and never reaches the missing path, so the FileNotFound
error is never raised nor reported; no output file is written, as the
claim also states. -/
theorem missing_file_error_never_reported :
    fsGap "missing.json" = none ∧
    main ["script.py", "a.json", "missing.json"] wGap =
      { printed := ["Loading data from: a.json",
          "An error occurred: File a.json does not contain a list of dictionaries."],
        writes := [], exitCode := 0 } := by decide

/-- C6: for every filename that does not end with ".csv", the Writer
raises ValueError with the message from the source before constructing
the path or the DataFrame, and performs no filesystem write. -/
theorem writer_rejects_non_csv (data : List Record) (fn dir home : String)
    (h : pyEndswith fn ".csv" = false) :
    save_dataframe_to_csv data fn dir home =
      (.error (.valueError "Filename must have a .csv extension."), []) := by
  simp [save_dataframe_to_csv, h]

/-- Witness for C6 at the concrete filename data.txt. -/
theorem writer_rejects_non_csv_witness :
    save_dataframe_to_csv [] "data.txt" "~/Documents" "/home/user" =
      (.error (.valueError "Filename must have a .csv extension."), []) :=
  writer_rejects_non_csv [] "data.txt" "~/Documents" "/home/user" (by decide)

/-- C7: when the line read at the filename prompt is empty after
stripping whitespace, the prompt-and-save tail of main raises ValueError
with the message from the source, performs no write, and never invokes
the Writer. -/
theorem empty_filename_raises (combined : List Record) (stdin home : String)
    (h : pyStrip stdin = "") :
    promptAndSave combined stdin home =
      ⟨[promptText], [], some (.valueError "Filename cannot be empty.")⟩ := by
  simp [promptAndSave, h]

/-- Witness for C7 at a stdin line of blanks. -/
theorem empty_filename_raises_witness :
    promptAndSave [] "   " "/home/user" =
      ⟨[promptText], [], some (.valueError "Filename cannot be empty.")⟩ :=
  empty_filename_raises [] "   " "/home/user" (by decide)

/-- C2: for every invocation of main with at least one file argument, over
every filesystem, stdin line and home directory, the run writes no file,
exits with status 0, and prints exactly the progress line for the first
file followed by the top-level error line: load_data returns the polars
DataFrame from read_json, never a Python list, so the isinstance check in
main raises ValueError on the first successfully loaded file, and every
loading failure raises even earlier. The Writer is never reached. -/
theorem main_always_ends_in_error (prog q : String) (ps : List String) (w : World) :
    ∃ msg, main (prog :: q :: ps) w =
      { printed := ["Loading data from: " ++ q, "An error occurred: " ++ msg],
        writes := [], exitCode := 0 } := by
  have hlen : ¬ (prog :: q :: ps).length < 2 := by simp
  cases hfs : w.fs q with
  | none =>
    exact ⟨"File not found: " ++ q,
      by simp [main, hlen, loadLoop, load_data, hfs, errMsg]⟩
  | some c =>
    cases c with
    | invalid =>
      exact ⟨"could not parse JSON file " ++ q,
        by simp [main, hlen, loadLoop, load_data, hfs, errMsg]⟩
    | parsesTo df =>
      exact ⟨"File " ++ q ++ " does not contain a list of dictionaries.",
        by simp [main, hlen, loadLoop, load_data, hfs, errMsg, asList]⟩

/-- C5: the process exits with status 1 exactly when fewer than two argv
entries are present (no file arguments), in which case only the usage
line is printed and nothing is written; on every other path, including
every caught internal failure, the exit status is 0. -/
theorem exit_code_policy (argv : List String) (w : World) :
    (main argv w).exitCode = (if argv.length < 2 then 1 else 0) ∧
    main [] w = ⟨[usageMsg], [], 1⟩ ∧
    (∀ prog, main [prog] w = ⟨[usageMsg], [], 1⟩) := by
  refine ⟨?_, by simp [main], fun prog => by simp [main]⟩
  by_cases h : argv.length < 2
  · simp [main, h]
  · rw [main, if_neg h, if_neg h]
    rcases hll : loadLoop w.fs (argv.drop 1) with ⟨lines, r⟩
    cases r with
    | error e => simp
    | ok combined =>
      cases herr : (promptAndSave combined w.stdinLine w.home).err <;> simp [herr]

/-- Every error produced by buildCols is a polars compute error. -/
theorem buildCols_error (rows : List Record) (ks : List String) (e : PyErr)
    (h : buildCols rows ks = .error e) : ∃ m, e = .computeError m := by
  induction ks with
  | nil => simp [buildCols] at h
  | cons k ks ih =>
    cases hd : inferDtype (colValues rows k) with
    | none =>
      simp [buildCols, hd] at h
      exact ⟨"could not create DataFrame from mixed column " ++ k, h.symm⟩
    | some d =>
      cases hb : buildCols rows ks with
      | error e2 =>
        simp [buildCols, hd, hb] at h
        subst h
        exact ih hb
      | ok cs => simp [buildCols, hd, hb] at h

/-- Every error produced by mkFrame is a polars compute error, never the
ValueError of the filename check. -/
theorem mkFrame_error (rows : List Record) (e : PyErr)
    (h : mkFrame rows = .error e) : ∃ m, e = .computeError m := by
  cases hb : buildCols rows (keysUnion rows) with
  | error e2 =>
    rw [mkFrame, hb] at h
    exact (Except.error.injEq _ _ ▸ h : e2 = e) ▸ buildCols_error rows (keysUnion rows) e2 hb
  | ok cs => rw [mkFrame, hb] at h; exact absurd h (by simp)

/-- C10: the filename validation of the Writer raises its ValueError if
and only if the filename does not end with the exact case-sensitive
string ".csv"; in particular the bare filename ".csv" passes the check
while ".CSV" fails it. -/
theorem ext_check_exact_iff (data : List Record) (fn dir home : String) :
    (((save_dataframe_to_csv data fn dir home).1 =
        .error (.valueError "Filename must have a .csv extension.")) ↔
      pyEndswith fn ".csv" = false) ∧
    pyEndswith ".csv" ".csv" = true ∧
    pyEndswith ".CSV" ".csv" = false := by
  refine ⟨⟨?_, ?_⟩, by decide, by decide⟩
  · intro h
    cases hx : pyEndswith fn ".csv" with
    | false => rfl
    | true =>
      cases hmk : mkFrame data with
      | error e =>
        simp [save_dataframe_to_csv, hx, hmk] at h
        obtain ⟨m, hm⟩ := mkFrame_error data e hmk
        simp [hm] at h
      | ok df0 => simp [save_dataframe_to_csv, hx, hmk] at h
  · intro h
    simp [save_dataframe_to_csv, h]

/-- The dtype chosen by shrinkIntDtype stores every observed value, and
no integer dtype of strictly smaller width stores them all. -/
theorem shrink_fits_and_minimal (vs : List Int)
    (h64 : fitsWidth (-9223372036854775808) 9223372036854775807 vs = true) :
    intDtypeFits (shrinkIntDtype vs) vs = true ∧
    ∀ d, 0 < dtypeBits d → dtypeBits d < dtypeBits (shrinkIntDtype vs) →
      intDtypeFits d vs = false := by
  unfold shrinkIntDtype
  by_cases h8 : fitsWidth (-128) 127 vs = true
  · rw [if_pos h8]
    exact ⟨h8, fun d hd1 hd2 => by cases d <;> simp [dtypeBits] at hd1 hd2 ⊢⟩
  · rw [if_neg h8]
    have h8f : fitsWidth (-128) 127 vs = false := by
      cases hx : fitsWidth (-128) 127 vs <;> simp_all
    by_cases h16 : fitsWidth (-32768) 32767 vs = true
    · rw [if_pos h16]
      refine ⟨h16, fun d hd1 hd2 => ?_⟩
      cases d <;> simp [dtypeBits] at hd1 hd2 ⊢
      exact h8f
    · rw [if_neg h16]
      have h16f : fitsWidth (-32768) 32767 vs = false := by
        cases hx : fitsWidth (-32768) 32767 vs <;> simp_all
      by_cases h32 : fitsWidth (-2147483648) 2147483647 vs = true
      · rw [if_pos h32]
        refine ⟨h32, fun d hd1 hd2 => ?_⟩
        cases d <;> simp [dtypeBits] at hd1 hd2 ⊢
        · exact h8f
        · exact h16f
      · rw [if_neg h32]
        have h32f : fitsWidth (-2147483648) 2147483647 vs = false := by
          cases hx : fitsWidth (-2147483648) 2147483647 vs <;> simp_all
        refine ⟨h64, fun d hd1 hd2 => ?_⟩
        cases d <;> simp [dtypeBits] at hd1 hd2 ⊢
        · exact h8f
        · exact h16f
        · exact h32f

/-- Every column produced by buildCols carries the dtype inferred from
its values. -/
theorem buildCols_dtype (rows : List Record) (ks : List String) (cs : List Column)
    (h : buildCols rows ks = .ok cs) (c : Column) (hc : c ∈ cs) :
    inferDtype c.values = some c.dtype := by
  induction ks generalizing cs with
  | nil =>
    simp [buildCols] at h
    subst h
    simp at hc
  | cons k ks ih =>
    cases hd : inferDtype (colValues rows k) with
    | none => simp [buildCols, hd] at h
    | some d =>
      cases hb : buildCols rows ks with
      | error e => simp [buildCols, hd, hb] at h
      | ok cs2 =>
        simp [buildCols, hd, hb] at h
        subst h
        rcases List.mem_cons.mp hc with hc1 | hc2
        · subst hc1; exact hd
        · exact ih cs2 hb hc2

/-- Every column of a frame built by mkFrame carries the dtype inferred
from its values. -/
theorem mkFrame_dtype (rows : List Record) (f : Frame) (h : mkFrame rows = .ok f)
    (c : Column) (hc : c ∈ f.cols) : inferDtype c.values = some c.dtype := by
  cases hb : buildCols rows (keysUnion rows) with
  | error e => rw [mkFrame, hb] at h; exact absurd h (by simp)
  | ok cs =>
    rw [mkFrame, hb] at h
    have hf : f = ⟨cs⟩ := by
      cases h; rfl
    subst hf
    exact buildCols_dtype rows (keysUnion rows) cs hb c hc

/-- A column whose non-null values are integers and not all null is
inferred as Int64 by polars. -/
theorem inferDtype_int (vs : List PyVal) (hnn : nonNull vs ≠ [])
    (hall : (nonNull vs).all isIntV = true) : inferDtype vs = some .int64 := by
  simp [inferDtype, hnn, hall]

/-- shrinkCol does not change the values of a column. -/
theorem shrinkCol_values (c : Column) : (shrinkCol c).values = c.values := by
  unfold shrinkCol
  split
  · rfl
  · rfl

/-- shrinkCol narrows an Int64 column to the shrunk integer dtype. -/
theorem shrinkCol_int64 (c : Column) (h : c.dtype = .int64) :
    (shrinkCol c).dtype = shrinkIntDtype (intsOf c.values) := by
  simp [shrinkCol, h]

/-- C9: whenever the Writer performs its file write, every column of the
serialized frame whose values are integers (with at least one non-null
value, all within the Int64 range polars reads JSON integers into) is
stored at the smallest signed integer width sufficient for those values:
the write happens only after select(shrink_dtype) has replaced Int64 by
the minimal fitting width, and no strictly narrower integer dtype would
hold all observed values. -/
theorem writer_narrows_int_columns (data : List Record) (fn dir home path : String)
    (frame : Frame)
    (h : (save_dataframe_to_csv data fn dir home).2 = [(path, frame)])
    (c : Column) (hc : c ∈ frame.cols)
    (hnn : nonNull c.values ≠ [])
    (hall : (nonNull c.values).all isIntV = true)
    (h64 : fitsWidth (-9223372036854775808) 9223372036854775807 (intsOf c.values) = true) :
    intDtypeFits c.dtype (intsOf c.values) = true ∧
    ∀ d, 0 < dtypeBits d → dtypeBits d < dtypeBits c.dtype →
      intDtypeFits d (intsOf c.values) = false := by
  cases hext : pyEndswith fn ".csv" with
  | false => simp [save_dataframe_to_csv, hext] at h
  | true =>
    cases hmk : mkFrame data with
    | error e => simp [save_dataframe_to_csv, hext, hmk] at h
    | ok df0 =>
      simp [save_dataframe_to_csv, hext, hmk] at h
      obtain ⟨hpath, hframe⟩ := h
      subst hframe
      simp only [shrinkFrame] at hc
      obtain ⟨c0, hc0, hcc⟩ := List.mem_map.mp hc
      have hvals : c.values = c0.values := by rw [← hcc, shrinkCol_values]
      have hinf : inferDtype c0.values = some c0.dtype :=
        mkFrame_dtype data df0 hmk c0 hc0
      have h0int : c0.dtype = .int64 := by
        have hi : inferDtype c0.values = some .int64 :=
          inferDtype_int c0.values (hvals ▸ hnn) (hvals ▸ hall)
        rw [hi] at hinf
        exact (Option.some.inj hinf).symm
      have hdt : c.dtype = shrinkIntDtype (intsOf c.values) := by
        rw [← hcc, shrinkCol_int64 c0 h0int, shrinkCol_values]
      rw [hdt]
      exact shrink_fits_and_minimal (intsOf c.values) h64

/-- Witness for C9: on the column x with single value 1000 the written
frame stores Int16, which fits, while Int8 does not. -/
theorem writer_narrows_int_columns_witness :
    intDtypeFits Dtype.int16 (intsOf [PyVal.vInt 1000]) = true ∧
    intDtypeFits Dtype.int8 (intsOf [PyVal.vInt 1000]) = false := by
  have h := writer_narrows_int_columns [[("x", PyVal.vInt 1000)]] "o.csv" "~/Documents"
    "/root" "/root/Documents/o.csv" ⟨[⟨"x", Dtype.int16, [PyVal.vInt 1000]⟩]⟩
    (by decide) ⟨"x", Dtype.int16, [PyVal.vInt 1000]⟩ (by decide)
    (by decide) (by decide) (by decide)
  exact ⟨h.1, h.2 Dtype.int8 (by decide) (by decide)⟩

/-- A string starts with the character c exactly when its character list
starts with c; the one-character pattern string is given by its list. -/
theorem startswith_char_iff (c : Char) (s t : String) (ht : t.data = [c]) :
    pyStartswith s t = true ↔ ∃ l, s.data = c :: l := by
  rcases s with ⟨l⟩
  cases l with
  | nil => simp [pyStartswith, ht, List.isPrefixOf]
  | cons a as =>
    simp only [pyStartswith, ht, List.isPrefixOf, List.isPrefixOf_nil_left,
      Bool.and_true, beq_iff_eq]
    constructor
    · intro h
      exact ⟨as, by rw [h]⟩
    · rintro ⟨l2, hl⟩
      cases hl
      rfl

/-- rstripAux either empties a nonempty list or keeps its head. -/
theorem rstripAux_head (c : Char) (cs : List Char) :
    rstripAux (c :: cs) = [] ∨ ∃ t, rstripAux (c :: cs) = c :: t := by
  cases h : rstripAux cs with
  | nil =>
    by_cases hc : c = '/'
    · left
      simp [rstripAux, h, hc]
    · right
      exact ⟨[], by simp [rstripAux, h, hc]⟩
  | cons d ds =>
    right
    exact ⟨d :: ds, by simp [rstripAux, h]⟩

/-- C8 counterexample: with output directory "out" and filename "a.csv"
the Writer succeeds and returns "out/a.csv", which is not an absolute
path: the claim that the returned path is absolute for every output
directory is false, as no absolutization is performed. -/
theorem writer_path_not_absolute :
    (save_dataframe_to_csv [] "a.csv" "out" "/home/user").1 = .ok "out/a.csv" ∧
    pyStartswith "out/a.csv" "/" = false := by decide

/-- C8 amended: for every filename, output directory and home directory,
on success the Writer returns exactly
expanduser(join(output_dir, filename)); when the output directory is the
default "~/Documents" and the home directory is absolute that returned
path is absolute, while no absolutization is performed in general, so a
relative output directory yields a relative path. -/
theorem writer_path_join_expand (data : List Record) (fn dir home p : String)
    (h : (save_dataframe_to_csv data fn dir home).1 = .ok p) :
    p = expanduser home (pyJoin dir fn) ∧
    (dir = "~/Documents" → pyStartswith home "/" = true →
      pyStartswith p "/" = true) := by
  cases hext : pyEndswith fn ".csv" with
  | false => simp [save_dataframe_to_csv, hext] at h
  | true =>
    cases hmk : mkFrame data with
    | error e => simp [save_dataframe_to_csv, hext, hmk] at h
    | ok df0 =>
      simp [save_dataframe_to_csv, hext, hmk] at h
      refine ⟨h.symm, fun hdir hh => ?_⟩
      subst hdir
      rw [← h]
      by_cases hb : pyStartswith fn "/" = true
      · rw [pyJoin, if_pos hb]
        obtain ⟨l, hl⟩ := (startswith_char_iff '/' fn "/" (by decide)).mp hb
        have hnt : pyStartswith fn "~" = false := by
          show ("~".data.isPrefixOf fn.data) = false
          have h1 : "~".data = ['~'] := by decide
          rw [h1, hl]
          rfl
        rw [expanduser, if_pos hnt]
        exact hb
      · have hb2 : pyStartswith fn "/" = false := by
          cases hx : pyStartswith fn "/"
          · rfl
          · exact absurd hx hb
        have hc2 : ¬ ((decide ("~/Documents" = "") || pyEndswith "~/Documents" "/") = true) := by
          decide
        rw [pyJoin, if_neg hb, if_neg hc2]
        have hassoc : "~/Documents" ++ "/" ++ fn = "~/Documents/" ++ fn := rfl
        rw [hassoc]
        have hjt : pyStartswith ("~/Documents/" ++ fn) "~" = true :=
          (startswith_char_iff '~' ("~/Documents/" ++ fn) "~" (by decide)).mpr
            ⟨"/Documents/".data ++ fn.data, rfl⟩
        have hjs : pyStartswith (strDrop ("~/Documents/" ++ fn) 1) "/" = true :=
          (startswith_char_iff '/' (strDrop ("~/Documents/" ++ fn) 1) "/" (by decide)).mpr
            ⟨"Documents/".data ++ fn.data, rfl⟩
        rw [expanduser, if_neg (by rw [hjt]; simp), if_pos (by rw [hjs]; simp)]
        show pyStartswith
            (if rstripSlash home ++ strDrop ("~/Documents/" ++ fn) 1 = "" then "/"
             else rstripSlash home ++ strDrop ("~/Documents/" ++ fn) 1) "/" = true
        obtain ⟨lh, hlh⟩ := (startswith_char_iff '/' home "/" (by decide)).mp hh
        have hbase : ∃ lb,
            (rstripSlash home ++ strDrop ("~/Documents/" ++ fn) 1).data = '/' :: lb := by
          have hdata : (rstripSlash home ++ strDrop ("~/Documents/" ++ fn) 1).data =
              rstripAux home.data ++ ('/' :: ("Documents/".data ++ fn.data)) := rfl
          rw [hdata, hlh]
          rcases rstripAux_head '/' lh with he | ⟨t, ht⟩
          · exact ⟨"Documents/".data ++ fn.data, by rw [he]; rfl⟩
          · exact ⟨t ++ '/' :: ("Documents/".data ++ fn.data), by rw [ht]; rfl⟩
        obtain ⟨lb, hlb⟩ := hbase
        have hne : ¬ (rstripSlash home ++ strDrop ("~/Documents/" ++ fn) 1 = "") := by
          intro he
          rw [he] at hlb
          have hz : ("" : String).data = [] := rfl
          rw [hz] at hlb
          exact List.noConfusion hlb
        rw [if_neg hne]
        exact (startswith_char_iff '/' _ "/" (by decide)).mpr ⟨lb, hlb⟩

/-- Witness for C8 amended at the default directory with home /home/user
and filename a.csv. -/
theorem writer_path_join_expand_witness :
    ("/home/user/Documents/a.csv" : String) =
      expanduser "/home/user" (pyJoin "~/Documents" "a.csv") ∧
    pyStartswith "/home/user/Documents/a.csv" "/" = true := by
  have h := writer_path_join_expand [] "a.csv" "~/Documents" "/home/user"
    "/home/user/Documents/a.csv" (by decide)
  exact ⟨h.1, h.2 rfl (by decide)⟩

end JsonToCsv
